import Mathlib

/-!
Shallow embedding, in Lean 4, of the error-classification, mapping and
health-aggregation logic of the agent-proxy service
(backend/src/infra/web/controllers/agent.controller.ts,
backend/src/infra/http/retell-repository.ts, the getAgent and
getAgentPrompt use cases, the RetellApiClient prompt composition, and
backend/src/infra/web/middleware/enhanced-health.middleware.ts),
together with theorems settling the frozen claims about that code.

JavaScript machine model: numbers are rationals plus a separate NaN
value where truthiness matters, strings are Lean strings, absent object
properties are `none`, and thrown values are a dedicated inductive type
distinguishing NotFoundError instances, other Error instances and
non-Error values.
-/

/-- A JavaScript runtime value, as far as the truthiness checks of the
controller code need to distinguish values.  Objects and arrays are
always truthy; their payload is irrelevant here, so a string tag stands
in for it. -/
inductive JSValue where
  | nullV
  | undefinedV
  | boolV (b : Bool)
  | numV (q : ℚ)
  | nanV
  | strV (s : String)
  | objV (tag : String)
deriving DecidableEq, Repr

/-- JavaScript truthiness of a value: null, undefined, false, 0, NaN and
the empty string are falsy; everything else is truthy. -/
def JSValue.truthy : JSValue → Bool
  | .nullV => false
  | .undefinedV => false
  | .boolV b => b
  | .numV q => q != 0
  | .nanV => false
  | .strV s => s != ""
  | .objV _ => true

/-- A value thrown inside a controller handler, as the classifier in
agent.controller.ts distinguishes thrown values: an instance of
NotFoundError, an instance of ExternalServiceError (a BaseError, hence
an Error, carrying a service tag), any other instance of Error, or a
wholly non-Error value such as a plain string, number, null or
undefined. -/
inductive ThrownValue where
  | notFoundError (message : String)
  | externalServiceError (message : String) (service : String)
  | jsError (message : String)
  | nonError (v : JSValue)
deriving DecidableEq, Repr

/-- Whether the thrown value is an instance of Error (NotFoundError and
ExternalServiceError extend BaseError which extends Error). -/
def ThrownValue.isError : ThrownValue → Bool
  | .notFoundError _ => true
  | .externalServiceError _ _ => true
  | .jsError _ => true
  | .nonError _ => false

/-- Whether the thrown value is an instance of NotFoundError. -/
def ThrownValue.isNotFoundError : ThrownValue → Bool
  | .notFoundError _ => true
  | _ => false

/-- Whether the thrown value is an instance of ExternalServiceError. -/
def ThrownValue.isExternalServiceError : ThrownValue → Bool
  | .externalServiceError _ _ => true
  | _ => false

/-- The message property of the thrown value; for non-Error values the
controller never reads it, so it is only defined on Error instances
(undefined-property access is modelled by the empty option). -/
def ThrownValue.message : ThrownValue → Option String
  | .notFoundError m => some m
  | .externalServiceError m _ => some m
  | .jsError m => some m
  | .nonError _ => none

/-- Boolean test for one list occurring contiguously inside another,
written by structural recursion on the haystack. -/
def listContains (needle : List Char) : List Char → Bool
  | [] => needle.isEmpty
  | c :: rest => needle.isPrefixOf (c :: rest) || listContains needle rest

/-- JavaScript String.prototype.includes: case-sensitive contiguous
substring test. -/
def jsIncludes (s pat : String) : Bool :=
  listContains pat.data s.data

/-- HTTP status constants from controller.constants.ts, as far as the
agent controller uses them. -/
def HTTP_STATUS_OK : Nat := 200
def HTTP_STATUS_BAD_REQUEST : Nat := 400
def HTTP_STATUS_UNAUTHORIZED : Nat := 401
def HTTP_STATUS_NOT_FOUND : Nat := 404
def HTTP_STATUS_INTERNAL_SERVER_ERROR : Nat := 500
def HTTP_STATUS_BAD_GATEWAY : Nat := 502
def HTTP_STATUS_SERVICE_UNAVAILABLE : Nat := 503

/-- The keyword cascade of getErrorStatusCode in agent.controller.ts,
applied to the message of an Error that is not a NotFoundError, in
source order: the validation family ("Invalid agent ID", "validation",
"required") gives 400, then the external-service family ("timeout",
"connection", "network") gives 502, then the
authentication/authorization family ("unauthorized", "forbidden",
"authentication") gives 401, and otherwise 500.  All checks are
JavaScript String.prototype.includes calls, hence case-sensitive. -/
def classifyErrorMessage (m : String) : Nat :=
  if jsIncludes m "Invalid agent ID" || jsIncludes m "validation" ||
      jsIncludes m "required" then
    HTTP_STATUS_BAD_REQUEST
  else if jsIncludes m "timeout" || jsIncludes m "connection" ||
      jsIncludes m "network" then
    HTTP_STATUS_BAD_GATEWAY
  else if jsIncludes m "unauthorized" || jsIncludes m "forbidden" ||
      jsIncludes m "authentication" then
    HTTP_STATUS_UNAUTHORIZED
  else
    HTTP_STATUS_INTERNAL_SERVER_ERROR

/-- getErrorStatusCode from agent.controller.ts: NotFoundError maps to
404; any other Error goes through the keyword cascade on its message;
every non-Error value maps to 500. -/
def getErrorStatusCode (error : ThrownValue) : Nat :=
  match error with
  | .notFoundError _ => HTTP_STATUS_NOT_FOUND
  | .externalServiceError m _ => classifyErrorMessage m
  | .jsError m => classifyErrorMessage m
  | .nonError _ => HTTP_STATUS_INTERNAL_SERVER_ERROR

/-- ensureResourceExists from agent.controller.ts: a falsy resource
value raises NotFoundError with the supplied message, a truthy one
passes through. -/
def ensureResourceExists (resource : JSValue) (errorMessage : String) :
    Except ThrownValue JSValue :=
  if resource.truthy then .ok resource
  else .error (.notFoundError errorMessage)

/-- The controller error response body and status, as assembled by
handleError in agent.controller.ts. -/
structure ControllerErrorResponse where
  statusCode : Nat
  data : JSValue
  message : String
deriving DecidableEq, Repr

/-- handleError from agent.controller.ts: the body message is the thrown
message of the value itself when it is an instance of Error, and the
default message of the handler otherwise; the status comes from getErrorStatusCode; the
data field is null. -/
def handleError (error : ThrownValue) (defaultMessage : String) :
    ControllerErrorResponse :=
  { statusCode := getErrorStatusCode error
    data := .nullV
    message := match error.message with
      | some m => m
      | none => defaultMessage }

/-- The whitespace characters stripped by JavaScript
String.prototype.trim, as far as the spec exercises them: space, tab,
newline, carriage return, vertical tab and form feed. -/
def isJsSpace (c : Char) : Bool :=
  c = ' ' || c = '\t' || c = '\n' || c = '\r' ||
    c = Char.ofNat 11 || c = Char.ofNat 12

/-- JavaScript String.prototype.trim: drop leading and trailing
whitespace characters. -/
def jsTrim (s : String) : String :=
  ⟨((s.data.dropWhile isJsSpace).reverse.dropWhile isJsSpace).reverse⟩

namespace UseCases

/-- Result of running a use case against a repository stub: either a
thrown value or a returned value, paired with the list of ids the
repository was invoked with. -/
inductive Outcome (α : Type) where
  | threw (e : ThrownValue)
  | returned (v : α)
deriving DecidableEq, Repr

/-- The getAgent use case (core/use-cases/get-agent.ts): an id that is
the empty string, or whose trimmed form is the empty string, raises an
Error with message "Agent ID is required"; otherwise the repository is
called with the id.  The second component records every repository
invocation that happened. -/
def getAgent {α : Type} (repo : String → α) (id : String) :
    Outcome α × List String :=
  if id = "" || jsTrim id = "" then
    (.threw (.jsError "Agent ID is required"), [])
  else
    (.returned (repo id), [id])

/-- The getAgentPrompt use case (core/use-cases/get-agent-prompt.ts),
with the same guard as getAgent before its repository call. -/
def getAgentPrompt {α : Type} (repo : String → α) (id : String) :
    Outcome α × List String :=
  if id = "" || jsTrim id = "" then
    (.threw (.jsError "Agent ID is required"), [])
  else
    (.returned (repo id), [id])

end UseCases

/-- The response_engine object of an upstream agent record, with the
llm_id and version properties possibly absent. -/
structure ApiResponseEngine where
  type : Option String
  llm_id : Option String
  version : Option ℚ
deriving DecidableEq, Repr

/-- An upstream (snake_case) agent record as consumed by mapToAgent in
retell-repository.ts.  Optional properties are modelled with Option,
numbers with rationals. -/
structure ApiAgent where
  agent_id : String
  agent_name : String
  system_prompt : Option String
  voice_id : Option String
  language : Option String
  response_engine : Option ApiResponseEngine
  temperature : Option ℚ
  max_tokens : Option ℚ
  version : Option ℚ
  version_title : Option String
  channel : Option String
  is_published : Option Bool
  last_modification_timestamp : ℚ
deriving DecidableEq, Repr

/-- A JavaScript Date, identified by its epoch-millisecond value. -/
structure DateV where
  epochMs : ℚ
deriving DecidableEq, Repr

/-- The responseEngine sub-object of the domain Agent entity. -/
structure ResponseEngineEntity where
  type : Option String
  llmId : Option String
  version : Option ℚ
deriving DecidableEq, Repr

/-- The domain Agent entity (core/entities/agent.ts). -/
structure Agent where
  id : String
  name : String
  prompt : String
  voiceId : Option String
  language : Option String
  model : String
  temperature : ℚ
  maxTokens : ℚ
  version : Option ℚ
  versionTitle : Option String
  createdAt : DateV
  updatedAt : DateV
  channel : Option String
  isPublished : Option Bool
  responseEngine : Option ResponseEngineEntity
deriving DecidableEq, Repr

/-- The JavaScript logical-or defaulting idiom on a possibly absent
string property: an absent or empty (falsy) string is replaced by the
default. -/
def jsOrStr (o : Option String) (d : String) : String :=
  match o with
  | none => d
  | some s => if s = "" then d else s

/-- The JavaScript logical-or defaulting idiom on a possibly absent
number property: an absent or zero (falsy) number is replaced by the
default. -/
def jsOrNum (o : Option ℚ) (d : ℚ) : ℚ :=
  match o with
  | none => d
  | some q => if q = 0 then d else q

/-- mapToAgent from retell-repository.ts.  The wall-clock instant taken
by the new Date() call for createdAt is passed in as now. -/
def mapToAgent (now : ℚ) (apiAgent : ApiAgent) : Agent :=
  { id := apiAgent.agent_id
    name := apiAgent.agent_name
    prompt := jsOrStr apiAgent.system_prompt ""
    voiceId := apiAgent.voice_id
    language := apiAgent.language
    model := jsOrStr (apiAgent.response_engine.bind (·.type)) "unknown"
    temperature := jsOrNum apiAgent.temperature (7 / 10)
    maxTokens := jsOrNum apiAgent.max_tokens 1000
    version := apiAgent.version
    versionTitle := apiAgent.version_title
    createdAt := ⟨now⟩
    updatedAt := ⟨apiAgent.last_modification_timestamp⟩
    channel := apiAgent.channel
    isPublished := apiAgent.is_published
    responseEngine := apiAgent.response_engine.map fun re =>
      { type := re.type, llmId := re.llm_id, version := re.version } }

/-- An upstream LLM record as read by RetellApiClient.getAgentPrompt:
the general prompt text (possibly absent), the version (possibly
absent) and the modification timestamp in epoch milliseconds. -/
structure LLMRecord where
  general_prompt : Option String
  version : Option ℚ
  last_modification_timestamp : ℚ
deriving DecidableEq, Repr

/-- The wire-shaped prompt record that RetellApiClient.getAgentPrompt
assembles and mapToAgentPrompt consumes.  The client never sets a
version_title property, so that property is carried as an option. -/
structure ApiPrompt where
  agent_id : String
  system_prompt : String
  prompt_version : Option ℚ
  version_title : Option String
  last_modification_time : ℚ
deriving DecidableEq, Repr

/-- The domain AgentPrompt entity (core/entities/agent.ts). -/
structure AgentPrompt where
  agentId : String
  prompt : String
  version : Option ℚ
  versionTitle : Option String
  updatedAt : DateV
deriving DecidableEq, Repr

namespace RetellApiClient

/-- RetellApiClient.getAgentPrompt from retell-client.ts: fetch the
agent (the already-settled result of this.getAgent(id) is passed in);
if the response_engine.llm_id of the agent is falsy (absent, or the empty
string), throw an Error saying the agent does not have an associated
LLM; otherwise fetch the LLM by that id and assemble the wire prompt
record, defaulting the general prompt text to the empty string.  The
surrounding catch rethrows ExternalServiceError unchanged and wraps any
other thrown value into an ExternalServiceError whose message names the
agent id. -/
def getAgentPrompt (fetchAgent : Except ThrownValue ApiAgent)
    (fetchLLM : String → Except ThrownValue LLMRecord) (id : String) :
    Except ThrownValue ApiPrompt :=
  let inner : Except ThrownValue ApiPrompt :=
    match fetchAgent with
    | .error e => .error e
    | .ok agent =>
      match agent.response_engine.bind (·.llm_id) with
      | none =>
        .error (.jsError ("Agent " ++ id ++ " does not have an associated LLM"))
      | some llmId =>
        if llmId = "" then
          .error (.jsError ("Agent " ++ id ++ " does not have an associated LLM"))
        else
          match fetchLLM llmId with
          | .error e => .error e
          | .ok llm =>
            .ok { agent_id := id
                  system_prompt := jsOrStr llm.general_prompt ""
                  prompt_version := llm.version
                  version_title := none
                  last_modification_time := llm.last_modification_timestamp }
  match inner with
  | .ok r => .ok r
  | .error e =>
    if e.isExternalServiceError then .error e
    else
      .error (.externalServiceError
        ("Failed to get agent prompt for " ++ id ++ " from Retell AI")
        "retell-ai")

end RetellApiClient

/-- mapToAgentPrompt from retell-repository.ts: a field-by-field rename
of the wire prompt record, with the modification time used directly as
the epoch-millisecond argument of the Date constructor. -/
def mapToAgentPrompt (apiPrompt : ApiPrompt) : AgentPrompt :=
  { agentId := apiPrompt.agent_id
    prompt := apiPrompt.system_prompt
    version := apiPrompt.prompt_version
    versionTitle := apiPrompt.version_title
    updatedAt := ⟨apiPrompt.last_modification_time⟩ }

/-- An upstream agent-version record as consumed by mapToAgentVersion
in retell-repository.ts.  The source accesses the record untyped, so
every property is modelled as a raw JavaScript value (null, undefined,
or any other value). -/
structure ApiVersion where
  agent_id : JSValue
  version : JSValue
  is_published : JSValue
  agent_name : JSValue
  voice_id : JSValue
  voice_model : JSValue
  fallback_voice_ids : JSValue
  voice_temperature : JSValue
  voice_speed : JSValue
  volume : JSValue
  responsiveness : JSValue
  interruption_sensitivity : JSValue
  enable_backchannel : JSValue
  backchannel_frequency : JSValue
  backchannel_words : JSValue
  reminder_trigger_ms : JSValue
  reminder_max_count : JSValue
  ambient_sound : JSValue
  ambient_sound_volume : JSValue
  language : JSValue
  webhook_url : JSValue
  webhook_timeout_ms : JSValue
  boosted_keywords : JSValue
  data_storage_setting : JSValue
  opt_in_signed_url : JSValue
  pronunciation_dictionary : JSValue
  normalize_for_speech : JSValue
  end_call_after_silence_ms : JSValue
  max_call_duration_ms : JSValue
  voicemail_option : JSValue
  post_call_analysis_data : JSValue
  post_call_analysis_model : JSValue
  begin_message_delay_ms : JSValue
  ring_duration_ms : JSValue
  stt_mode : JSValue
  vocab_specialization : JSValue
  allow_user_dtmf : JSValue
  user_dtmf_options : JSValue
  denoising_mode : JSValue
  pii_config : JSValue
  response_engine : JSValue
  last_modification_timestamp : JSValue
deriving DecidableEq, Repr

/-- The domain AgentVersion entity, with every property carried as the
raw JavaScript value the mapper copied into it. -/
structure AgentVersion where
  agentId : JSValue
  version : JSValue
  isPublished : JSValue
  agentName : JSValue
  voiceId : JSValue
  voiceModel : JSValue
  fallbackVoiceIds : JSValue
  voiceTemperature : JSValue
  voiceSpeed : JSValue
  volume : JSValue
  responsiveness : JSValue
  interruptionSensitivity : JSValue
  enableBackchannel : JSValue
  backchannelFrequency : JSValue
  backchannelWords : JSValue
  reminderTriggerMs : JSValue
  reminderMaxCount : JSValue
  ambientSound : JSValue
  ambientSoundVolume : JSValue
  language : JSValue
  webhookUrl : JSValue
  webhookTimeoutMs : JSValue
  boostedKeywords : JSValue
  dataStorageSetting : JSValue
  optInSignedUrl : JSValue
  pronunciationDictionary : JSValue
  normalizeForSpeech : JSValue
  endCallAfterSilenceMs : JSValue
  maxCallDurationMs : JSValue
  voicemailOption : JSValue
  postCallAnalysisData : JSValue
  postCallAnalysisModel : JSValue
  beginMessageDelayMs : JSValue
  ringDurationMs : JSValue
  sttMode : JSValue
  vocabSpecialization : JSValue
  allowUserDtmf : JSValue
  userDtmfOptions : JSValue
  denoisingMode : JSValue
  piiConfig : JSValue
  responseEngine : JSValue
  lastModificationTimestamp : JSValue
deriving DecidableEq, Repr

/-- mapToAgentVersion from retell-repository.ts: a pure field-by-field
rename from snake_case to camelCase with no value transformation and no
defaulting. -/
def mapToAgentVersion (apiVersion : ApiVersion) : AgentVersion :=
  { agentId := apiVersion.agent_id
    version := apiVersion.version
    isPublished := apiVersion.is_published
    agentName := apiVersion.agent_name
    voiceId := apiVersion.voice_id
    voiceModel := apiVersion.voice_model
    fallbackVoiceIds := apiVersion.fallback_voice_ids
    voiceTemperature := apiVersion.voice_temperature
    voiceSpeed := apiVersion.voice_speed
    volume := apiVersion.volume
    responsiveness := apiVersion.responsiveness
    interruptionSensitivity := apiVersion.interruption_sensitivity
    enableBackchannel := apiVersion.enable_backchannel
    backchannelFrequency := apiVersion.backchannel_frequency
    backchannelWords := apiVersion.backchannel_words
    reminderTriggerMs := apiVersion.reminder_trigger_ms
    reminderMaxCount := apiVersion.reminder_max_count
    ambientSound := apiVersion.ambient_sound
    ambientSoundVolume := apiVersion.ambient_sound_volume
    language := apiVersion.language
    webhookUrl := apiVersion.webhook_url
    webhookTimeoutMs := apiVersion.webhook_timeout_ms
    boostedKeywords := apiVersion.boosted_keywords
    dataStorageSetting := apiVersion.data_storage_setting
    optInSignedUrl := apiVersion.opt_in_signed_url
    pronunciationDictionary := apiVersion.pronunciation_dictionary
    normalizeForSpeech := apiVersion.normalize_for_speech
    endCallAfterSilenceMs := apiVersion.end_call_after_silence_ms
    maxCallDurationMs := apiVersion.max_call_duration_ms
    voicemailOption := apiVersion.voicemail_option
    postCallAnalysisData := apiVersion.post_call_analysis_data
    postCallAnalysisModel := apiVersion.post_call_analysis_model
    beginMessageDelayMs := apiVersion.begin_message_delay_ms
    ringDurationMs := apiVersion.ring_duration_ms
    sttMode := apiVersion.stt_mode
    vocabSpecialization := apiVersion.vocab_specialization
    allowUserDtmf := apiVersion.allow_user_dtmf
    userDtmfOptions := apiVersion.user_dtmf_options
    denoisingMode := apiVersion.denoising_mode
    piiConfig := apiVersion.pii_config
    responseEngine := apiVersion.response_engine
    lastModificationTimestamp := apiVersion.last_modification_timestamp }

/-- Health status levels of enhanced-health.middleware.ts. -/
inductive HealthStatus where
  | healthy
  | unhealthy
  | degraded
deriving DecidableEq, Repr

/-- An individual dependency health result, as in the
HealthCheckResult interface of enhanced-health.middleware.ts (metadata
is carried as a raw JavaScript value). -/
structure HealthCheckResult where
  status : HealthStatus
  message : Option String
  responseTime : Option Nat
  metadata : Option JSValue
deriving DecidableEq, Repr

/-- The fixed per-probe timeout of DependencyHealthChecker.checkAll in
milliseconds. -/
def HEALTH_TIMEOUT_MS : Nat := 5000

/-- The behaviour of one registered probe, described by how long its
promise takes to settle and how it settles: resolving with a result, or
rejecting with an Error carrying a message. -/
inductive ProbeBehavior where
  | resolves (duration : Nat) (result : HealthCheckResult)
  | rejects (duration : Nat) (msg : String)
deriving DecidableEq, Repr

/-- How long the settled promise of a probe takes, ignoring the race
with the timeout timer. -/
def probeDuration : ProbeBehavior → Nat
  | .resolves d _ => d
  | .rejects d _ => d

/-- The in-place patch checkAll applies to a resolved result: a falsy
responseTime (absent or 0) is replaced by the measured elapsed time. -/
def patchResponseTime (elapsed : Nat) (r : HealthCheckResult) :
    HealthCheckResult :=
  match r.responseTime with
  | none => { r with responseTime := some elapsed }
  | some q => if q = 0 then { r with responseTime := some elapsed } else r

/-- One iteration of the checkAll loop: the probe promise races a timer
that rejects with the Error "Health check timeout" after 5000
milliseconds.  A resolution before the timer wins yields the patched
result; any rejection, or a probe that has not settled when the timer
fires, lands in the catch branch, which records status unhealthy, the
Error message, and the timeout duration 5000 as responseTime. -/
def runProbe : ProbeBehavior → HealthCheckResult
  | .resolves d r =>
    if d < HEALTH_TIMEOUT_MS then patchResponseTime d r
    else
      { status := .unhealthy
        message := some "Health check timeout"
        responseTime := some HEALTH_TIMEOUT_MS
        metadata := none }
  | .rejects d msg =>
    if d < HEALTH_TIMEOUT_MS then
      { status := .unhealthy
        message := some msg
        responseTime := some HEALTH_TIMEOUT_MS
        metadata := none }
    else
      { status := .unhealthy
        message := some "Health check timeout"
        responseTime := some HEALTH_TIMEOUT_MS
        metadata := none }

/-- DependencyHealthChecker.checkAll: the registered probes, in
registration order, each run through the race with the timeout timer;
the results object keyed by probe name. -/
def checkAll (probes : List (String × ProbeBehavior)) :
    List (String × HealthCheckResult) :=
  probes.map fun q => (q.1, runProbe q.2)

/-- The timed semantics of the checkAll loop: the loop body awaits each
race before moving to the next registered probe, so a probe starts only
when the previous race has settled, after min(duration, 5000)
milliseconds.  Each entry carries the virtual start time of its
probe. -/
def checkAllTimed (t : Nat) :
    List (String × ProbeBehavior) → List (String × Nat × HealthCheckResult)
  | [] => []
  | q :: rest =>
    (q.1, t, runProbe q.2) ::
      checkAllTimed (t + min (probeDuration q.2) HEALTH_TIMEOUT_MS) rest

/-- The virtual time at which the checkAll loop finishes, started at
time t. -/
def checkAllEndTime (t : Nat) : List (String × ProbeBehavior) → Nat
  | [] => t
  | q :: rest =>
    checkAllEndTime (t + min (probeDuration q.2) HEALTH_TIMEOUT_MS) rest

/-- The overall-status reduction of the /health handler in
enhancedHealthPlugin: unhealthy if any dependency status is unhealthy,
else degraded if any is degraded, else healthy. -/
def overallStatus (statuses : List HealthStatus) : HealthStatus :=
  if statuses.any (· == .unhealthy) then .unhealthy
  else if statuses.any (· == .degraded) then .degraded
  else .healthy

/-- The HTTP status code the /health handler replies with: 200 for
healthy, 200 for degraded, 503 otherwise. -/
def healthStatusCode (s : HealthStatus) : Nat :=
  if s == .healthy then 200 else if s == .degraded then 200 else 503

/-- Whether a probe rejects, or does not resolve within the 5000
millisecond timeout. -/
def probeRejectsOrTimesOut : ProbeBehavior → Bool
  | .rejects _ _ => true
  | .resolves d _ => decide (HEALTH_TIMEOUT_MS ≤ d)

/-- The Error message the catch branch of checkAll records for a probe
that rejects or times out. -/
def probeFailureMessage : ProbeBehavior → String
  | .rejects d msg =>
    if d < HEALTH_TIMEOUT_MS then msg else "Health check timeout"
  | .resolves _ _ => "Health check timeout"

/-- The validation keyword family of the classifier: the literal
literal text "Invalid agent ID", "validation" and "required". -/
def hasValidationKeyword (m : String) : Bool :=
  jsIncludes m "Invalid agent ID" || jsIncludes m "validation" ||
    jsIncludes m "required"

/-- The connectivity keyword family of the classifier: "timeout",
"connection" and "network". -/
def hasConnectivityKeyword (m : String) : Bool :=
  jsIncludes m "timeout" || jsIncludes m "connection" ||
    jsIncludes m "network"

/-- The authorization keyword family of the classifier: "unauthorized",
"forbidden" and "authentication". -/
def hasAuthorizationKeyword (m : String) : Bool :=
  jsIncludes m "unauthorized" || jsIncludes m "forbidden" ||
    jsIncludes m "authentication"

/-- C1, counterexample.  The claim asserts that authorization keywords
have priority over connectivity keywords, so that the message
"authentication timeout" would be classified 401, and that the message
"Unauthorized access" is classified 401.  On the code, the
external-service check precedes the authorization check, so
"authentication timeout" is classified 502, and the substring checks
are case-sensitive, so "Unauthorized access" matches no family and is
classified 500. -/
theorem classifyOrder_counterexample :
    getErrorStatusCode (.jsError "authentication timeout") = 502 ∧
    (502 : Nat) ≠ 401 ∧
    getErrorStatusCode (.jsError "Unauthorized access") = 500 ∧
    (500 : Nat) ≠ 401 := by
  decide

/-- C1, amended.  For a thrown Error that is not a NotFoundError, the
classifier checks the message against keyword families case-sensitively
with first match wins, in the priority order: validation keywords (the
literal "Invalid agent ID", "validation", "required") give 400, then
connectivity keywords ("timeout", "connection", "network") give 502,
then authorization keywords ("unauthorized", "forbidden",
"authentication") give 401, defaulting to 500.  In particular
"Network timeout" is classified 502, "Agent name is required" 400,
"Unauthorized access" 500 (no lowercase keyword matches), and any
message containing both an authorization keyword and a connectivity
keyword, such as "authentication timeout", is classified 502. -/
theorem getErrorStatusCode_keyword_cascade (m : String) :
    (hasValidationKeyword m = true →
        getErrorStatusCode (.jsError m) = 400)
  ∧ (hasValidationKeyword m = false → hasConnectivityKeyword m = true →
        getErrorStatusCode (.jsError m) = 502)
  ∧ (hasValidationKeyword m = false → hasConnectivityKeyword m = false →
        hasAuthorizationKeyword m = true →
        getErrorStatusCode (.jsError m) = 401)
  ∧ (hasValidationKeyword m = false → hasConnectivityKeyword m = false →
        hasAuthorizationKeyword m = false →
        getErrorStatusCode (.jsError m) = 500)
  ∧ getErrorStatusCode (.jsError "Network timeout") = 502
  ∧ getErrorStatusCode (.jsError "Agent name is required") = 400
  ∧ getErrorStatusCode (.jsError "Unauthorized access") = 500
  ∧ getErrorStatusCode (.jsError "authentication timeout") = 502 := by
  unfold hasValidationKeyword hasConnectivityKeyword hasAuthorizationKeyword
  refine ⟨?_, ?_, ?_, ?_, by decide, by decide, by decide, by decide⟩
  · intro h
    simp [getErrorStatusCode, classifyErrorMessage, h,
      HTTP_STATUS_BAD_REQUEST]
  · intro h1 h2
    simp [getErrorStatusCode, classifyErrorMessage, h1, h2,
      HTTP_STATUS_BAD_GATEWAY]
  · intro h1 h2 h3
    simp [getErrorStatusCode, classifyErrorMessage, h1, h2, h3,
      HTTP_STATUS_UNAUTHORIZED]
  · intro h1 h2 h3
    simp [getErrorStatusCode, classifyErrorMessage, h1, h2, h3,
      HTTP_STATUS_INTERNAL_SERVER_ERROR]

/-- C1, witness: the cascade applied to the message
"authentication timeout", whose connectivity keyword fires before its
authorization keyword. -/
theorem getErrorStatusCode_keyword_cascade_witness :
    getErrorStatusCode (.jsError "authentication timeout") = 502 :=
  (getErrorStatusCode_keyword_cascade "authentication timeout").2.1
    (by decide) (by decide)

/-- C2.  Every falsy repository result passed to ensureResourceExists
raises a NotFoundError carrying the supplied message, and the
classifier maps any NotFoundError to 404 — identically for every falsy
variant; the six JavaScript falsy values are all covered by the
truthiness hypothesis. -/
theorem ensureResourceExists_falsy_notFound (resource : JSValue)
    (msg : String) (h : resource.truthy = false) :
    ensureResourceExists resource msg = .error (.notFoundError msg) ∧
    getErrorStatusCode (.notFoundError msg) = 404 ∧
    ([JSValue.nullV, JSValue.undefinedV, JSValue.boolV false,
        JSValue.numV 0, JSValue.strV "", JSValue.nanV].all
      fun v => v.truthy = false) := by
  refine ⟨?_, rfl, by decide⟩
  simp [ensureResourceExists, h]

/-- C2, witness: the falsy repository result 0 with the message of the
end-to-end 404 scenario. -/
theorem ensureResourceExists_falsy_notFound_witness :
    ensureResourceExists (.numV 0) "Agent with ID agent-999 not found" =
      .error (.notFoundError "Agent with ID agent-999 not found") ∧
    getErrorStatusCode
      (.notFoundError "Agent with ID agent-999 not found") = 404 :=
  ⟨(ensureResourceExists_falsy_notFound (.numV 0)
      "Agent with ID agent-999 not found" (by decide)).1,
   (ensureResourceExists_falsy_notFound (.numV 0)
      "Agent with ID agent-999 not found" (by decide)).2.1⟩

/-- C3.  handleError echoes the message of the thrown Error verbatim in the
response body for every Error instance, including an empty-string
message, which is classified 500; every wholly non-Error thrown value
yields the fixed default message of the handler and status 500, never echoing the
thrown value. -/
theorem handleError_message_and_fallback (m d s : String) (v : JSValue) :
    (handleError (.jsError m) d).message = m
  ∧ (handleError (.notFoundError m) d).message = m
  ∧ (handleError (.externalServiceError m s) d).message = m
  ∧ handleError (.jsError "") d =
      { statusCode := 500, data := .nullV, message := "" }
  ∧ (handleError (.nonError v) d).message = d
  ∧ (handleError (.nonError v) d).statusCode = 500 := by
  refine ⟨rfl, rfl, rfl, ?_, rfl, rfl⟩
  simp [handleError, ThrownValue.message, getErrorStatusCode]
  decide

/-- A string made only of JavaScript whitespace characters trims to the
empty string. -/
lemma jsTrim_eq_empty_of_all_space (s : String)
    (h : ∀ c ∈ s.data, isJsSpace c = true) : jsTrim s = "" := by
  have hd : s.data.dropWhile isJsSpace = [] :=
    List.dropWhile_eq_nil_iff.mpr h
  simp [jsTrim, hd]

/-- C4.  For every id that is empty or consists only of whitespace,
both the getAgent and the getAgentPrompt use cases throw the Error
"Agent ID is required" without invoking the repository (the recorded
invocation list is empty), and the controller classifies that failure
as 400. -/
theorem useCases_blank_id_rejected {α : Type} (repo : String → α)
    (id : String) (h : ∀ c ∈ id.data, isJsSpace c = true) :
    UseCases.getAgent repo id =
      (.threw (.jsError "Agent ID is required"), [])
  ∧ UseCases.getAgentPrompt repo id =
      (.threw (.jsError "Agent ID is required"), [])
  ∧ getErrorStatusCode (.jsError "Agent ID is required") = 400 := by
  have ht : jsTrim id = "" := jsTrim_eq_empty_of_all_space id h
  refine ⟨?_, ?_, by decide⟩
  · simp [UseCases.getAgent, ht]
  · simp [UseCases.getAgentPrompt, ht]

/-- C4, witness: three spaces as the id, against a repository stub that
would return 0. -/
theorem useCases_blank_id_rejected_witness :
    UseCases.getAgent (fun _ => (0 : Nat)) "   " =
      (.threw (.jsError "Agent ID is required"), [])
  ∧ UseCases.getAgentPrompt (fun _ => (0 : Nat)) "   " =
      (.threw (.jsError "Agent ID is required"), [])
  ∧ getErrorStatusCode (.jsError "Agent ID is required") = 400 :=
  useCases_blank_id_rejected (fun _ => (0 : Nat)) "   " (by decide)

/-- C5.  The agent mapper substitutes "unknown" for the model when the
upstream response_engine or its type is absent, 0.7 for an absent
temperature, 1000 for absent max_tokens, and the empty string for an
absent system_prompt. -/
theorem mapToAgent_absent_defaults (now : ℚ) (a : ApiAgent) :
    (a.response_engine.bind (·.type) = none →
        (mapToAgent now a).model = "unknown")
  ∧ (a.temperature = none → (mapToAgent now a).temperature = 7 / 10)
  ∧ (a.max_tokens = none → (mapToAgent now a).maxTokens = 1000)
  ∧ (a.system_prompt = none → (mapToAgent now a).prompt = "") := by
  refine ⟨fun h => ?_, fun h => ?_, fun h => ?_, fun h => ?_⟩ <;>
    simp [mapToAgent, jsOrStr, jsOrNum, h]

/-- An upstream agent record with every optional property absent, used
to instantiate the defaulting theorems. -/
def apiAgentBare : ApiAgent :=
  { agent_id := "agent-123"
    agent_name := "Test Agent"
    system_prompt := none
    voice_id := none
    language := none
    response_engine := none
    temperature := none
    max_tokens := none
    version := none
    version_title := none
    channel := none
    is_published := none
    last_modification_timestamp := 1700000000000 }

/-- C5, witness: all four defaults fire on the record with every
optional property absent. -/
theorem mapToAgent_absent_defaults_witness :
    (mapToAgent 0 apiAgentBare).model = "unknown"
  ∧ (mapToAgent 0 apiAgentBare).temperature = 7 / 10
  ∧ (mapToAgent 0 apiAgentBare).maxTokens = 1000
  ∧ (mapToAgent 0 apiAgentBare).prompt = "" :=
  ⟨(mapToAgent_absent_defaults 0 apiAgentBare).1 rfl,
   (mapToAgent_absent_defaults 0 apiAgentBare).2.1 rfl,
   (mapToAgent_absent_defaults 0 apiAgentBare).2.2.1 rfl,
   (mapToAgent_absent_defaults 0 apiAgentBare).2.2.2 rfl⟩

/-- C10.  The mapper defaults apply to falsy present values as well: a
present temperature equal to 0 maps to 0.7, a present max_tokens equal
to 0 maps to 1000, and consequently the temperature and
maxTokens of a mapped agent are never 0. -/
theorem mapToAgent_falsy_numeric_defaults (now : ℚ) (a : ApiAgent) :
    (a.temperature = some 0 → (mapToAgent now a).temperature = 7 / 10)
  ∧ (a.max_tokens = some 0 → (mapToAgent now a).maxTokens = 1000)
  ∧ (mapToAgent now a).temperature ≠ 0
  ∧ (mapToAgent now a).maxTokens ≠ 0 := by
  refine ⟨fun h => by simp [mapToAgent, jsOrNum, h],
          fun h => by simp [mapToAgent, jsOrNum, h], ?_, ?_⟩
  · show jsOrNum a.temperature (7 / 10) ≠ 0
    rcases a.temperature with _ | q
    · norm_num [jsOrNum]
    · by_cases hq : q = 0
      · simp [jsOrNum, hq]
      · simp [jsOrNum, hq]
  · show jsOrNum a.max_tokens 1000 ≠ 0
    rcases a.max_tokens with _ | q
    · norm_num [jsOrNum]
    · by_cases hq : q = 0 <;> simp [jsOrNum, hq]

/-- C10, witness: a record carrying temperature 0 and max_tokens 0 maps
to temperature 0.7 and maxTokens 1000. -/
theorem mapToAgent_falsy_numeric_defaults_witness :
    (mapToAgent 0 { apiAgentBare with
        temperature := some 0, max_tokens := some 0 }).temperature = 7 / 10
  ∧ (mapToAgent 0 { apiAgentBare with
        temperature := some 0, max_tokens := some 0 }).maxTokens = 1000 :=
  ⟨(mapToAgent_falsy_numeric_defaults 0 { apiAgentBare with
        temperature := some 0, max_tokens := some 0 }).1 rfl,
   (mapToAgent_falsy_numeric_defaults 0 { apiAgentBare with
        temperature := some 0, max_tokens := some 0 }).2.1 rfl⟩

/-- C6.  The prompt-retrieval composite operation: a failed agent fetch
propagates; an agent whose nested llm_id is absent fails with the
descriptive wrapped error naming the agent id; otherwise the LLM record
fetched by that id is assembled into the wire prompt record with the
general prompt text defaulted to the empty string, the LLM version, and
the LLM modification timestamp, and mapToAgentPrompt turns that record
into the AgentPrompt whose updatedAt Date carries the timestamp as
epoch milliseconds with no unit conversion. -/
theorem retellClient_getAgentPrompt_composition (id llmId : String)
    (agent : ApiAgent) (fetchLLM : String → Except ThrownValue LLMRecord)
    (llm : LLMRecord) (em es : String) :
    RetellApiClient.getAgentPrompt
        (.error (.externalServiceError em es)) fetchLLM id =
      .error (.externalServiceError em es)
  ∧ (agent.response_engine.bind (·.llm_id) = none →
      RetellApiClient.getAgentPrompt (.ok agent) fetchLLM id =
        .error (.externalServiceError
          ("Failed to get agent prompt for " ++ id ++ " from Retell AI")
          "retell-ai"))
  ∧ (agent.response_engine.bind (·.llm_id) = some llmId → llmId ≠ "" →
      fetchLLM llmId = .ok llm →
      RetellApiClient.getAgentPrompt (.ok agent) fetchLLM id =
        .ok { agent_id := id
              system_prompt := jsOrStr llm.general_prompt ""
              prompt_version := llm.version
              version_title := none
              last_modification_time := llm.last_modification_timestamp }
      ∧ mapToAgentPrompt
          { agent_id := id
            system_prompt := jsOrStr llm.general_prompt ""
            prompt_version := llm.version
            version_title := none
            last_modification_time := llm.last_modification_timestamp } =
          { agentId := id
            prompt := jsOrStr llm.general_prompt ""
            version := llm.version
            versionTitle := none
            updatedAt := ⟨llm.last_modification_timestamp⟩ }) := by
  refine ⟨rfl, fun h => ?_, fun h h0 hl => ⟨?_, rfl⟩⟩
  · simp [RetellApiClient.getAgentPrompt, h,
      ThrownValue.isExternalServiceError]
  · simp [RetellApiClient.getAgentPrompt, h, h0, hl]

/-- A concrete upstream agent record whose response engine names an
LLM, used to instantiate the composition theorem. -/
def apiAgentWithLLM : ApiAgent :=
  { apiAgentBare with
    response_engine := some
      { type := some "retell-llm", llm_id := some "llm_1", version := some 2 } }

/-- A concrete LLM record used to instantiate the composition
theorem. -/
def llmRecordSample : LLMRecord :=
  { general_prompt := some "You are a helpful assistant"
    version := some 3
    last_modification_timestamp := 1714512000000 }

/-- C6, witness: the composite operation on the concrete agent and LLM
records, and on an agent with no associated LLM. -/
theorem retellClient_getAgentPrompt_composition_witness :
    RetellApiClient.getAgentPrompt (.ok apiAgentWithLLM)
        (fun _ => .ok llmRecordSample) "agent-123" =
      .ok { agent_id := "agent-123"
            system_prompt := "You are a helpful assistant"
            prompt_version := some 3
            version_title := none
            last_modification_time := 1714512000000 }
  ∧ RetellApiClient.getAgentPrompt (.ok apiAgentBare)
        (fun _ => .ok llmRecordSample) "agent-123" =
      .error (.externalServiceError
        "Failed to get agent prompt for agent-123 from Retell AI"
        "retell-ai") := by
  constructor
  · exact ((retellClient_getAgentPrompt_composition "agent-123" "llm_1"
      apiAgentWithLLM (fun _ => .ok llmRecordSample) llmRecordSample
      "" "").2.2 rfl (by decide) rfl).1
  · exact (retellClient_getAgentPrompt_composition "agent-123" "llm_1"
      apiAgentBare (fun _ => .ok llmRecordSample) llmRecordSample
      "" "").2.1 rfl

/-- C8.  With every optional upstream property populated with a truthy
value, the agent mapper preserves every value unchanged apart from the
snake_case-to-camelCase rename, createdAt being freshly generated from
the wall clock; and the version mapper copies every one of its
properties as-is, null and undefined included, with no defaulting, and
in particular is injective. -/
theorem mapToAgent_preserves_populated_fields (now : ℚ) (a : ApiAgent)
    (re : ApiResponseEngine) (t p : String) (tq mq : ℚ)
    (hre : a.response_engine = some re) (hty : re.type = some t)
    (hty0 : t ≠ "") (hp : a.system_prompt = some p) (hp0 : p ≠ "")
    (htm : a.temperature = some tq) (htm0 : tq ≠ 0)
    (hmx : a.max_tokens = some mq) (hmx0 : mq ≠ 0) :
    mapToAgent now a =
      { id := a.agent_id
        name := a.agent_name
        prompt := p
        voiceId := a.voice_id
        language := a.language
        model := t
        temperature := tq
        maxTokens := mq
        version := a.version
        versionTitle := a.version_title
        createdAt := ⟨now⟩
        updatedAt := ⟨a.last_modification_timestamp⟩
        channel := a.channel
        isPublished := a.is_published
        responseEngine := some
          { type := some t, llmId := re.llm_id, version := re.version } }
  ∧ (∀ v : ApiVersion, mapToAgentVersion v =
      ⟨v.agent_id, v.version, v.is_published, v.agent_name, v.voice_id,
       v.voice_model, v.fallback_voice_ids, v.voice_temperature,
       v.voice_speed, v.volume, v.responsiveness,
       v.interruption_sensitivity, v.enable_backchannel,
       v.backchannel_frequency, v.backchannel_words,
       v.reminder_trigger_ms, v.reminder_max_count, v.ambient_sound,
       v.ambient_sound_volume, v.language, v.webhook_url,
       v.webhook_timeout_ms, v.boosted_keywords, v.data_storage_setting,
       v.opt_in_signed_url, v.pronunciation_dictionary,
       v.normalize_for_speech, v.end_call_after_silence_ms,
       v.max_call_duration_ms, v.voicemail_option,
       v.post_call_analysis_data, v.post_call_analysis_model,
       v.begin_message_delay_ms, v.ring_duration_ms, v.stt_mode,
       v.vocab_specialization, v.allow_user_dtmf, v.user_dtmf_options,
       v.denoising_mode, v.pii_config, v.response_engine,
       v.last_modification_timestamp⟩)
  ∧ Function.Injective mapToAgentVersion := by
  refine ⟨?_, fun v => rfl, fun v w hvw => ?_⟩
  · simp [mapToAgent, jsOrStr, jsOrNum, hre, hty, hty0, hp, hp0,
      htm, htm0, hmx, hmx0]
  · cases v
    cases w
    simpa [mapToAgentVersion, AgentVersion.mk.injEq,
      ApiVersion.mk.injEq] using hvw

/-- A fully populated upstream agent record used to instantiate the
preservation theorem. -/
def apiAgentFull : ApiAgent :=
  { agent_id := "agent-123"
    agent_name := "Test Agent"
    system_prompt := some "Be helpful"
    voice_id := some "voice-9"
    language := some "en-US"
    response_engine := some
      { type := some "retell-llm", llm_id := some "llm_1", version := some 2 }
    temperature := some (1 / 2)
    max_tokens := some 750
    version := some 4
    version_title := some "v4"
    channel := some "voice"
    is_published := some true
    last_modification_timestamp := 1714512000000 }

/-- C8, witness: the mapper on the fully populated record. -/
theorem mapToAgent_preserves_populated_fields_witness :
    mapToAgent 99 apiAgentFull =
      { id := "agent-123"
        name := "Test Agent"
        prompt := "Be helpful"
        voiceId := some "voice-9"
        language := some "en-US"
        model := "retell-llm"
        temperature := 1 / 2
        maxTokens := 750
        version := some 4
        versionTitle := some "v4"
        createdAt := ⟨99⟩
        updatedAt := ⟨1714512000000⟩
        channel := some "voice"
        isPublished := some true
        responseEngine := some
          { type := some "retell-llm", llmId := some "llm_1",
            version := some 2 } } :=
  (mapToAgent_preserves_populated_fields 99 apiAgentFull
    { type := some "retell-llm", llm_id := some "llm_1", version := some 2 }
    "retell-llm" "Be helpful" (1 / 2) 750 rfl rfl (by decide) rfl
    (by decide) rfl (by norm_num) rfl (by norm_num)).1

/-- A probe that rejects or times out yields exactly the catch-branch
record: status unhealthy, the failure message, and the timeout duration
as responseTime. -/
lemma runProbe_of_failure (p : ProbeBehavior)
    (h : probeRejectsOrTimesOut p = true) :
    runProbe p =
      { status := .unhealthy
        message := some (probeFailureMessage p)
        responseTime := some HEALTH_TIMEOUT_MS
        metadata := none } := by
  cases p with
  | resolves d r =>
    have hd : ¬ d < HEALTH_TIMEOUT_MS := by
      simpa [probeRejectsOrTimesOut, Nat.not_lt] using h
    simp [runProbe, probeFailureMessage, hd]
  | rejects d msg =>
    by_cases hd : d < HEALTH_TIMEOUT_MS <;>
      simp [runProbe, probeFailureMessage, hd]

/-- The overall-status reduction characterized by membership of the
three levels in the status list. -/
lemma overallStatus_spec (sts : List HealthStatus) :
    (overallStatus sts = .unhealthy ↔ HealthStatus.unhealthy ∈ sts)
  ∧ (overallStatus sts = .degraded ↔
      HealthStatus.unhealthy ∉ sts ∧ HealthStatus.degraded ∈ sts)
  ∧ (overallStatus sts = .healthy ↔
      HealthStatus.unhealthy ∉ sts ∧ HealthStatus.degraded ∉ sts) := by
  have ha : sts.any (· == HealthStatus.unhealthy) = true ↔
      HealthStatus.unhealthy ∈ sts := by
    simp [List.any_eq_true]
  have hb : sts.any (· == HealthStatus.degraded) = true ↔
      HealthStatus.degraded ∈ sts := by
    simp [List.any_eq_true]
  unfold overallStatus
  by_cases h1 : sts.any (· == HealthStatus.unhealthy) = true
  · simp [h1, ha.mp h1]
  · have h1m : HealthStatus.unhealthy ∉ sts := fun hm => h1 (ha.mpr hm)
    by_cases h2 : sts.any (· == HealthStatus.degraded) = true
    · simp [h1, h2, h1m, hb.mp h2]
    · have h2m : HealthStatus.degraded ∉ sts := fun hm => h2 (hb.mpr hm)
      simp [h1, h2, h1m, h2m]

/-- The /health route replies 503 exactly for the unhealthy overall
status. -/
lemma healthStatusCode_eq_503_iff (s : HealthStatus) :
    healthStatusCode s = 503 ↔ s = .unhealthy := by
  rcases s <;> simp [healthStatusCode]

/-- C7.  In the enhanced health checker, every registered probe that
rejects or does not resolve within the 5000 ms timeout is recorded
unhealthy with responseTime 5000; the overall status is unhealthy
exactly when some probe result is unhealthy, degraded exactly when none
is unhealthy but some is degraded, healthy otherwise; and the HTTP code
is 503 exactly when the overall status is unhealthy. -/
theorem checkAll_overall_aggregation
    (probes : List (String × ProbeBehavior)) :
    (∀ n p, (n, p) ∈ probes → probeRejectsOrTimesOut p = true →
      (n, ({ status := .unhealthy
             message := some (probeFailureMessage p)
             responseTime := some HEALTH_TIMEOUT_MS
             metadata := none } : HealthCheckResult)) ∈ checkAll probes)
  ∧ (overallStatus ((checkAll probes).map fun r => r.2.status) =
        .unhealthy ↔
      HealthStatus.unhealthy ∈ (checkAll probes).map fun r => r.2.status)
  ∧ (overallStatus ((checkAll probes).map fun r => r.2.status) =
        .degraded ↔
      HealthStatus.unhealthy ∉
          ((checkAll probes).map fun r => r.2.status) ∧
        HealthStatus.degraded ∈ (checkAll probes).map fun r => r.2.status)
  ∧ (overallStatus ((checkAll probes).map fun r => r.2.status) =
        .healthy ↔
      HealthStatus.unhealthy ∉
          ((checkAll probes).map fun r => r.2.status) ∧
        HealthStatus.degraded ∉
          ((checkAll probes).map fun r => r.2.status))
  ∧ (healthStatusCode
        (overallStatus ((checkAll probes).map fun r => r.2.status)) =
        503 ↔
      overallStatus ((checkAll probes).map fun r => r.2.status) =
        .unhealthy) := by
  refine ⟨?_,
    (overallStatus_spec ((checkAll probes).map fun r => r.2.status)).1,
    (overallStatus_spec ((checkAll probes).map fun r => r.2.status)).2.1,
    (overallStatus_spec ((checkAll probes).map fun r => r.2.status)).2.2,
    healthStatusCode_eq_503_iff _⟩
  intro n p hmem hfail
  have := List.mem_map_of_mem (fun q : String × ProbeBehavior =>
    (q.1, runProbe q.2)) hmem
  simpa [checkAll, runProbe_of_failure p hfail] using this

/-- C7, witness: one registered probe that rejects after 100 ms is
recorded unhealthy with responseTime 5000, and the overall status maps
to HTTP 503. -/
theorem checkAll_overall_aggregation_witness :
    ("retell-api", ({ status := .unhealthy
                      message := some "fetch failed"
                      responseTime := some 5000
                      metadata := none } : HealthCheckResult)) ∈
      checkAll [("retell-api", .rejects 100 "fetch failed")]
  ∧ healthStatusCode
      (overallStatus
        ((checkAll [("retell-api", .rejects 100 "fetch failed")]).map
          fun r => r.2.status)) = 503 := by
  have h := checkAll_overall_aggregation
    [("retell-api", .rejects 100 "fetch failed")]
  exact ⟨h.1 "retell-api" (.rejects 100 "fetch failed")
      (by simp) (by decide),
    h.2.2.2.2.mpr (by decide)⟩

/-- C9, counterexample.  The claim asserts that registered probes run
concurrently against each other and that a slow probe does not block
sibling probes or the overall aggregation beyond the fixed 5000 ms
timeout.  In the timed semantics of the checkAll loop, with two
registered probes each resolving healthy after 4000 ms, the second
probe starts only at virtual time 4000 rather than 0, and the loop
finishes at 8000 ms even though no single probe exceeds the timeout. -/
theorem checkAll_sequential_counterexample :
    ((checkAllTimed 0
        [("retell-api", .resolves 4000 ⟨.healthy, none, none, none⟩),
         ("database", .resolves 4000 ⟨.healthy, none, none, none⟩)]).map
      fun x => x.2.1) = [0, 4000]
  ∧ (4000 : Nat) ≠ 0
  ∧ checkAllEndTime 0
      [("retell-api", .resolves 4000 ⟨.healthy, none, none, none⟩),
       ("database", .resolves 4000 ⟨.healthy, none, none, none⟩)] = 8000
  ∧ (5000 : Nat) < 8000 := by
  refine ⟨rfl, by decide, rfl, by decide⟩

/-- Each loop iteration waits at most the 5000 ms timeout. -/
lemma checkAllEndTime_le (t : Nat) (probes : List (String × ProbeBehavior)) :
    checkAllEndTime t probes =
      t + ((probes.map fun q =>
        min (probeDuration q.2) HEALTH_TIMEOUT_MS).sum) ∧
    checkAllEndTime t probes ≤ t + HEALTH_TIMEOUT_MS * probes.length := by
  induction probes generalizing t with
  | nil => simp [checkAllEndTime]
  | cons q rest ih =>
    rcases ih (t + min (probeDuration q.2) HEALTH_TIMEOUT_MS) with ⟨h1, h2⟩
    constructor
    · simp [checkAllEndTime, h1, Nat.add_assoc]
    · calc checkAllEndTime t (q :: rest) ≤
            t + min (probeDuration q.2) HEALTH_TIMEOUT_MS +
              HEALTH_TIMEOUT_MS * rest.length := h2
        _ ≤ t + HEALTH_TIMEOUT_MS + HEALTH_TIMEOUT_MS * rest.length := by
            have := Nat.min_le_right (probeDuration q.2) HEALTH_TIMEOUT_MS
            omega
        _ = t + HEALTH_TIMEOUT_MS * (q :: rest).length := by
            simp [List.length_cons, Nat.mul_succ]
            ring

/-- C9, amended.  The registered probes run sequentially, not
concurrently: the loop of checkAll awaits each race before starting the
next probe, so the probe at a given position starts at the sum of the
timeout-capped durations of all earlier probes, a slow probe delays
every later sibling by up to the 5000 ms per-probe bound, the loop
finishes at the sum of the capped durations (at most 5000 ms per
registered probe, the only bound the race with the timer enforces), and
the recorded results agree with checkAll. -/
theorem checkAllTimed_sequential_schedule (t : Nat)
    (probes : List (String × ProbeBehavior)) :
    ((checkAllTimed t probes).map fun x => (x.1, x.2.2)) = checkAll probes
  ∧ checkAllEndTime t probes =
      t + ((probes.map fun q =>
        min (probeDuration q.2) HEALTH_TIMEOUT_MS).sum)
  ∧ checkAllEndTime t probes ≤ t + HEALTH_TIMEOUT_MS * probes.length
  ∧ ∀ pre q post, probes = pre ++ q :: post →
      (checkAllTimed t probes)[pre.length]? =
        some (q.1,
          t + ((pre.map fun r =>
            min (probeDuration r.2) HEALTH_TIMEOUT_MS).sum),
          runProbe q.2) := by
  refine ⟨?_, (checkAllEndTime_le t probes).1,
    (checkAllEndTime_le t probes).2, ?_⟩
  · induction probes generalizing t with
    | nil => rfl
    | cons q rest ih => simp [checkAllTimed, checkAll, ih]
  · intro pre q post hsplit
    subst hsplit
    induction pre generalizing t with
    | nil => simp [checkAllTimed]
    | cons r rest ih =>
      simpa [checkAllTimed, Nat.add_assoc] using
        ih (t + min (probeDuration r.2) HEALTH_TIMEOUT_MS)

/-- C9, witness: with two probes of 4000 ms each, the schedule places
the second probe at start time 4000. -/
theorem checkAllTimed_sequential_schedule_witness :
    (checkAllTimed 0
        [("retell-api", .resolves 4000 ⟨.healthy, none, none, none⟩),
         ("database", .resolves 4000 ⟨.healthy, none, none, none⟩)])[1]? =
      some ("database", 4000,
        runProbe (.resolves 4000 ⟨.healthy, none, none, none⟩)) := by
  have h := (checkAllTimed_sequential_schedule 0
    [("retell-api", .resolves 4000 ⟨.healthy, none, none, none⟩),
     ("database", .resolves 4000 ⟨.healthy, none, none, none⟩)]).2.2.2
    [("retell-api", .resolves 4000 ⟨.healthy, none, none, none⟩)]
    ("database", .resolves 4000 ⟨.healthy, none, none, none⟩) [] rfl
  simpa using h
